import Mathlib

/-!
Verification of the futaba journal core (publish/subscribe event journal)
against its natural-language specification.

Shallow embedding of:
  - src/futaba/journal/impl/channel_output.py  (ICONS, ChannelOutputListener)
  - src/futaba/journal/impl/direct_message.py  (DirectMessageListener)
  - src/futaba/cogs/info/alias.py              (EXTENSION_REGEX, Alias.member_update,
                                                journal send call sites)

Python runtime errors (AttributeError, KeyError, ValueError) are embedded as
an explicit error type; fallible Python code becomes `Except PyError`.
Parts of the repository that the spec describes but that are not present in
the source tree (the base Listener, the Router dispatch loop, the path
matching rule, utils.copy_discord_file) are modelled from the spec and say
so in their doc comments.
-/

namespace Futaba

/-- Python runtime error values raised by the embedded code. -/
inductive PyError where
  | attributeError : String → PyError
  | keyError : String → PyError
  | valueError : String → PyError
deriving DecidableEq, Repr

/-- Channel-like destination; the core treats it as an opaque identity handle. -/
structure TextChannel where
  id : Nat
deriving DecidableEq, Repr

/-- Guild scope object: opaque identity plus the attributes the sinks read
(`guild.name`, `guild.channels`). -/
structure Guild where
  id : Nat
  name : String
  channels : List TextChannel
deriving DecidableEq, Repr

/-- Opaque rich-content block (the `embed` attribute); forwarded verbatim. -/
structure Embed where
  id : Nat
deriving DecidableEq, Repr

/-- Binary attachment handle: a filename plus underlying bytes and a read
cursor. A handle is fully readable when its cursor is at the start. -/
structure FileHandle where
  filename : String
  bytes : List Nat
  pos : Nat
deriving DecidableEq, Repr

/-- Bytes still obtainable from a handle (reading from the current cursor). -/
def FileHandle.readAllBytes (f : FileHandle) : List Nat :=
  f.bytes.drop f.pos

/-- A handle is fully readable when nothing has been consumed from it. -/
def FileHandle.isFullyReadable (f : FileHandle) : Bool :=
  f.pos == 0

/-- Recognized keys of the open attribute mapping, as consumed by the two
reference sinks: `attributes.get("icon")`, `"embed" in attributes`,
`"file" in attributes`, `"files" in attributes`. A `none` field means the
key is absent from the mapping. -/
structure Attributes where
  icon : Option String
  embed : Option Embed
  file : Option FileHandle
  files : Option (List FileHandle)
deriving DecidableEq, Repr

/-- Attribute mapping with no recognized keys present. -/
def Attributes.empty : Attributes :=
  { icon := none, embed := none, file := none, files := none }

/-- ICONS table from channel_output.py: fixed mapping from symbolic icon
name to display glyph, embedded as an association list in source order. -/
def ICONS : List (String × String) := [
  ("info", "ℹ"),
  ("idea", "💡"),
  ("warning", "⚠"),
  ("error", "❌"),
  ("forbidden", "⛔"),
  ("critical", "🆘"),
  ("ok", "🆗"),
  ("announce", "📣"),
  ("ban", "🔨"),
  ("kick", "👢"),
  ("muffled", "😷"),
  ("mute", "🙊"),
  ("jail", "🚨"),
  ("flag", "🚩"),
  ("deleted", "💀"),
  ("nsfw", "🔞"),
  ("has-mail", "📬"),
  ("no-mail", "📪"),
  ("investigate", "🕵"),
  ("watch", "👁"),
  ("edit", "📝"),
  ("save", "💾"),
  ("writing", "✍"),
  ("settings", "🛠"),
  ("deploy", "🚀"),
  ("package", "📦"),
  ("script", "📜"),
  ("key", "🔑"),
  ("lock", "🔒"),
  ("unlock", "🔓"),
  ("folder", "📂"),
  ("file", "📄"),
  ("book", "📔"),
  ("upload", "📤"),
  ("download", "📥"),
  ("bookmark", "🔖"),
  ("journal", "📒"),
  ("attachment", "📎"),
  ("clipboard", "📋"),
  ("pin", "📌"),
  ("briefcase", "💼"),
  ("cabinet", "🗃"),
  ("trash", "🗑"),
  ("hourglass", "⏳"),
  ("person", "👤"),
  ("navigate", "🧭"),
  ("bot", "🤖"),
  ("news", "📰"),
  ("art", "🎨"),
  ("tag", "🎫"),
  ("music", "🎵"),
  ("link", "🔗"),
  ("alert", "🔔"),
  ("game", "🎮"),
  ("search", "🔍"),
  ("bomb", "💣"),
  ("gift", "🎁"),
  ("celebration", "🎉"),
  ("international", "🌐"),
  ("award", "🏆"),
  ("luck", "🍀")
]

/-- Dictionary lookup `ICONS[name]` as a partial lookup; `none` is Python's
KeyError case. -/
def iconsLookup (name : String) : Option String :=
  (ICONS.find? (fun p => p.1 == name)).map (fun p => p.2)

/-- Observable delivery effect of a sink: a text message sent to a channel. -/
inductive SendAction where
  | channelSend : TextChannel → String → SendAction
deriving DecidableEq, Repr

/-- Arguments every listener filter receives: `(path, scope, content, attributes)`.
The scope may be absent (`None` in Python). -/
structure EventArgs where
  path : String
  guild : Option Guild
  content : String
  attributes : Attributes

/-- User-supplied filter predicate, per the spec contract
`(path, scope, content, attributes) -> bool`. -/
def UserFilter : Type :=
  EventArgs → Bool

/-- ChannelOutputListener state: the bound destination channel, the
registration path and recursion flag, and the optional user-supplied
filter handed to the base Listener constructor. -/
structure ChannelOutputListener where
  path : String
  channel : TextChannel
  recursive : Bool
  userFilter : Option UserFilter

/-- ChannelOutputListener.filter from channel_output.py: returns False when
`self.channel not in guild.channels`, True otherwise. Accessing
`guild.channels` when the scope is `None` raises AttributeError, hence the
`Except` result. -/
def ChannelOutputListener.filter (l : ChannelOutputListener)
    (_path : String) (guild : Option Guild) (_content : String)
    (_attributes : Attributes) : Except PyError Bool :=
  match guild with
  | none => .error (.attributeError "channels")
  | some g =>
    if l.channel ∉ g.channels then
      .ok false
    else
      .ok true

/-- ChannelOutputListener.handle from channel_output.py: look up
`attributes.get("icon")`; when present, `ICONS[icon]` (KeyError if absent
from the table) is prepended with a space to the content; then the text is
sent to the bound channel. -/
def ChannelOutputListener.handle (l : ChannelOutputListener)
    (_path : String) (_guild : Option Guild) (content : String)
    (attributes : Attributes) : Except PyError SendAction :=
  match attributes.icon with
  | some icon =>
    match iconsLookup icon with
    | none => .error (.keyError icon)
    | some glyph => .ok (.channelSend l.channel (glyph ++ " " ++ content))
  | none => .ok (.channelSend l.channel content)

/-- Modelled from the spec: the base Listener class (journal/listener.py is
not in the source tree). The registration's filtering step composes the
optional user-supplied filter with the sink's mandatory filter: the
mandatory filter runs first, a filter that raises is treated as a
rejection, and the user filter (default: accept everything) is consulted
only when the mandatory filter accepted. -/
def ChannelOutputListener.filteringStep (l : ChannelOutputListener)
    (args : EventArgs) : Bool :=
  match l.filter args.path args.guild args.content args.attributes with
  | .error _ => false
  | .ok b =>
    if b then
      match l.userFilter with
      | none => true
      | some f => f args
    else
      false

/-- Modelled from the spec: the Router's per-listener dispatch step
(journal/router.py is not in the source tree). The filter is evaluated
synchronously; only when it accepts is the handler invoked; a handler
failure is caught and logged, producing no delivery. The returned list is
the sequence of observable sends for this listener. -/
def dispatchChannelSink (l : ChannelOutputListener) (args : EventArgs) :
    List SendAction :=
  if l.filteringStep args then
    match l.handle args.path args.guild args.content args.attributes with
    | .ok a => [a]
    | .error _ => []
  else
    []

/-- Modelled from the spec: futaba.utils.copy_discord_file (utils.py is not
in the source tree). Duplication materializes the source bytes and wraps
them in a new, independent, fully-readable handle, preserving the original
filename. -/
def copy_discord_file (f : FileHandle) : FileHandle :=
  { filename := f.filename, bytes := f.bytes, pos := 0 }

/-- Outgoing message payload assembled by DirectMessageListener.handle: the
keyword arguments handed to `user.send`. A `none` field means the keyword
is absent. -/
structure DMPayload where
  content : String
  embed : Option Embed
  file : Option FileHandle
  files : Option (List FileHandle)
deriving DecidableEq, Repr

/-- DirectMessageListener state from direct_message.py: the target user and
the registration path and recursion flag. -/
structure DirectMessageListener where
  path : String
  userId : Nat
  recursive : Bool
deriving DecidableEq, Repr

/-- DirectMessageListener.handle from direct_message.py: when the scope is
present, content becomes `"[" + guild.name + "] " + content`; the payload
gets `embed` verbatim when present, `file` as a duplicated attachment, and
`files` as the list of duplicated attachments, each only when its key is
in the attribute mapping. -/
def DirectMessageListener.handle (_l : DirectMessageListener)
    (_path : String) (guild : Option Guild) (content : String)
    (attributes : Attributes) : DMPayload :=
  let content :=
    match guild with
    | some g => "[" ++ g.name ++ "] " ++ content
    | none => content
  { content := content
    embed := attributes.embed
    file := attributes.file.map copy_discord_file
    files := attributes.files.map (fun fs => fs.map copy_discord_file) }

/-- Boolean test that the character list `s` starts with the character list
`t`. -/
def charsStartWith : List Char → List Char → Bool
  | _, [] => true
  | [], _ :: _ => false
  | c :: cs, d :: ds => c == d && charsStartWith cs ds

/-- String `s` starts with string `t`. -/
def strStartsWith (s t : String) : Bool :=
  charsStartWith s.data t.data

/-- Modelled from the spec: the Listener path matching rule applied by the
Router (journal/listener.py and journal/router.py are not in the source
tree). A recursive listener at path L matches event path P iff P equals L
or P starts with L followed by the separator; a non-recursive listener
matches only the exact path. -/
def listenerMatches (lpath : String) (recursive : Bool) (p : String) : Bool :=
  if recursive then
    p == lpath || strStartsWith p (lpath ++ "/")
  else
    p == lpath

/-- Character class `[a-z]` of EXTENSION_REGEX. -/
def isLowerAZ (c : Char) : Bool :=
  'a' ≤ c && c ≤ 'z'

/-- End-of-pattern step `.+$` of EXTENSION_REGEX applied to the remaining
characters: a nonempty run of non-newline characters must reach the end of
the string, where `$` also accepts a position just before one final
newline. -/
def dotPlusEndOk (tail : List Char) : Bool :=
  let core := if tail.getLast? == some '\n' then tail.dropLast else tail
  !core.isEmpty && core.all (fun c => c != '\n')

/-- EXTENSION_REGEX from alias.py, the compiled pattern
`\.([a-z]+)\?.+$` as applied by `re.match`, which anchors at the start of
the string. Returns capture group 1 (the extension letters) on success.
Greedy matching of `[a-z]+` is exact here: a shorter letter run is always
followed by another letter, never by the required `?`. -/
def extensionRegexMatch (s : String) : Option String :=
  match s.data with
  | [] => none
  | c :: rest =>
    if c = '.' then
      let letters := rest.takeWhile isLowerAZ
      let rest2 := rest.dropWhile isLowerAZ
      if letters.isEmpty then
        none
      else
        match rest2 with
        | '?' :: tail => if dotPlusEndOk tail then some (String.mk letters) else none
        | _ => none
    else
      none

/-- Member state read by Alias.member_update: identity, current username,
nickname, avatar hash, avatar URL and guild. -/
structure Member where
  id : Nat
  name : String
  nick : Option String
  avatar : Option String
  avatar_url : String
  guild : Guild
deriving DecidableEq, Repr

/-- MemberChanges from alias.py: the fields that changed in a member
update; `none` mirrors the initial None of each slot. -/
structure MemberChanges where
  avatar_url : Option String
  username : Option String
  nickname : Option String
deriving DecidableEq, Repr

/-- Truthiness of MemberChanges (`__bool__`): true iff any slot is set. -/
def MemberChanges.toBool (c : MemberChanges) : Bool :=
  c.avatar_url.isSome || c.username.isSome || c.nickname.isSome

/-- Database writes performed inside the transaction of
Alias.member_update. -/
inductive DbWrite where
  | add_avatar (ext : String)
  | add_username (username : String)
  | add_nickname (nickname : String)
deriving DecidableEq, Repr

/-- A call to `self.journal.send` observed from alias.py: the path suffix
under the broadcaster prefix `/alias`, the guild scope, and the `icon`
attribute supplied by the producer. The rendered content text (built with
the external helpers user_discrim and StringBuilder, not in the source
tree) is opaque to every claim and is not recorded. -/
structure JournalSend where
  pathSuffix : String
  guildId : Nat
  icon : String
deriving DecidableEq, Repr

/-- Alias.member_update from alias.py: collect the changed fields; return
early when nothing changed; when the avatar changed, download the avatar
(external I/O, assumed available) and extract the file extension with
EXTENSION_REGEX, raising ValueError when the anchored match fails; only
then perform the database writes and emit the journal event with icon
`person`. The result is the pair (database writes, journal sends), or the
raised error. -/
def member_update (before after : Member) :
    Except PyError (List DbWrite × List JournalSend) :=
  let changes : MemberChanges :=
    { avatar_url := if before.avatar ≠ after.avatar then some after.avatar_url else none
      username := if before.name ≠ after.name then some after.name else none
      nickname := if before.nick ≠ after.nick ∧ after.nick.isSome then after.nick else none }
  if !changes.toBool then
    .ok ([], [])
  else
    let extStep : Except PyError (Option String) :=
      match changes.avatar_url with
      | some url =>
        match extensionRegexMatch url with
        | none => .error (.valueError ("Avatar URL does not match extension regex: " ++ url))
        | some ext => .ok (some ext)
      | none => .ok none
    match extStep with
    | .error e => .error e
    | .ok avatar_ext =>
      let writes :=
        (match avatar_ext with
         | some ext => [DbWrite.add_avatar ext]
         | none => [])
        ++ (match changes.username with
            | some u => [DbWrite.add_username u]
            | none => [])
        ++ (match changes.nickname with
            | some n => [DbWrite.add_nickname n]
            | none => [])
      .ok (writes,
        [{ pathSuffix := "member/update", guildId := before.guild.id, icon := "person" }])

/-- The journal send in Alias.add_alt: path suffix `alt/add`, icon
`item_add`. -/
def add_alt_journal_send (guild : Guild) : JournalSend :=
  { pathSuffix := "alt/add", guildId := guild.id, icon := "item_add" }

/-- The journal send in Alias.del_alt_chain: path suffix `alt/clear`, icon
`item_clear`. -/
def del_alt_chain_journal_send (guild : Guild) : JournalSend :=
  { pathSuffix := "alt/clear", guildId := guild.id, icon := "item_clear" }

/-- Every icon name occurring as the `icon` attribute at a journal send
call site in the source tree: `person` (member_update), `item_add`
(add_alt), `item_clear` (del_alt_chain). -/
def producerIconNames : List String :=
  ["person", "item_add", "item_clear"]

/-! Concrete fixtures used by scenario conjuncts and witnesses. -/

/-- Destination channel C of scenarios A and B. -/
def chanC : TextChannel := ⟨1⟩

/-- Guild G, whose channels contain C. -/
def guildG : Guild := ⟨10, "Guild G", [⟨1⟩, ⟨2⟩]⟩

/-- Guild H, whose channels do not contain C. -/
def guildH : Guild := ⟨11, "Guild H", [⟨3⟩]⟩

/-- ChannelOutputListener of scenarios A and B: registered at /alias,
recursive, bound to channel C, no user filter. -/
def chanListener : ChannelOutputListener := ⟨"/alias", chanC, true, none⟩

/-- Attribute mapping carrying an icon name absent from ICONS. -/
def attrsBadIcon : Attributes :=
  { Attributes.empty with icon := some "not-a-real-icon" }

/-- User filter that accepts every event. -/
def ufAlways : UserFilter := fun _ => true

/-- Channel listener constructed with the user filter `ufAlways`. -/
def chanListenerUF : ChannelOutputListener := ⟨"/alias", chanC, true, some ufAlways⟩

/-- Event arguments of scenario A. -/
def argsScenarioA : EventArgs := ⟨"/alias/member_update", some guildG, "hello", Attributes.empty⟩

/-- Guild named Test Guild of scenario D. -/
def testGuild : Guild := ⟨20, "Test Guild", []⟩

/-- DirectMessageListener of scenario D: registered at /alts,
non-recursive, for user U. -/
def dmListener : DirectMessageListener := ⟨"/alts", 42, false⟩

/-- Concrete attachment handle. -/
def fileF1 : FileHandle := ⟨"evidence.png", [137, 80, 78, 71], 0⟩

/-- Member state before a concrete avatar change. -/
def memBefore : Member := ⟨5, "alice", none, some "aaa", "old-url", guildG⟩

/-- Member state after the avatar change; the new avatar URL is an ordinary
https URL. -/
def memAfter : Member :=
  ⟨5, "alice", none, some "bbb", "https://cdn.discordapp.com/avatars/5/bbb.png?size=1024", guildG⟩

/-! Helper lemmas. -/

/-- charsStartWith agrees with list prefixhood. -/
theorem charsStartWith_iff (t : List Char) :
    ∀ s : List Char, charsStartWith s t = true ↔ t <+: s := by
  induction t with
  | nil =>
    intro s
    cases s <;> simp [charsStartWith]
  | cons d ds ih =>
    intro s
    cases s with
    | nil => simp [charsStartWith]
    | cons c cs =>
      rw [charsStartWith]
      simp only [Bool.and_eq_true, beq_iff_eq, ih cs, List.cons_prefix_cons]
      exact and_congr eq_comm Iff.rfl

/-- A successful EXTENSION_REGEX match forces the subject string to begin
with the character dot. -/
theorem extensionRegexMatch_starts_dot (s e : String)
    (h : extensionRegexMatch s = some e) : s.data.head? = some '.' := by
  unfold extensionRegexMatch at h
  split at h
  · exact absurd h (by simp)
  · next c rest heq =>
    rw [heq]
    by_cases hc : c = '.'
    · simp [hc]
    · rw [if_neg hc] at h
      exact absurd h (by simp)

/-! Claim theorems. -/

/-- C1: for every event delivered to a ChannelOutputListener bound to
channel C with a present scope, the mandatory filter accepts exactly when
C is one of the scope's channels, and when the filter rejects the dispatch
step delivers nothing to C. -/
theorem C1_channel_filter_scope_membership
    (l : ChannelOutputListener) (p : String) (g : Guild) (c : String)
    (a : Attributes) :
    (l.filter p (some g) c a = .ok true ↔ l.channel ∈ g.channels) ∧
    (l.filter p (some g) c a = .ok false →
      dispatchChannelSink l ⟨p, some g, c, a⟩ = []) := by
  constructor
  · unfold ChannelOutputListener.filter
    by_cases h : l.channel ∈ g.channels <;> simp [h]
  · intro h
    unfold dispatchChannelSink ChannelOutputListener.filteringStep
    rw [show (⟨p, some g, c, a⟩ : EventArgs).path = p from rfl]
    rw [show (⟨p, some g, c, a⟩ : EventArgs).guild = some g from rfl]
    rw [show (⟨p, some g, c, a⟩ : EventArgs).content = c from rfl]
    rw [show (⟨p, some g, c, a⟩ : EventArgs).attributes = a from rfl]
    rw [h]
    simp

/-- C2: ChannelOutputListener.handle prefixes the content with the
registry glyph of the `icon` attribute and one space when the icon is
present and known (in particular `person` yields the bust glyph), and
sends the content unchanged when no `icon` key is present. -/
theorem C2_channel_handle_icon_rendering
    (l : ChannelOutputListener) (p : String) (g : Option Guild) (c : String)
    (a : Attributes) :
    (∀ name glyph, a.icon = some name → iconsLookup name = some glyph →
      l.handle p g c a = .ok (.channelSend l.channel (glyph ++ " " ++ c))) ∧
    (a.icon = some "person" →
      l.handle p g c a = .ok (.channelSend l.channel ("👤 " ++ c))) ∧
    (a.icon = none → l.handle p g c a = .ok (.channelSend l.channel c)) := by
  refine ⟨?_, ?_, ?_⟩
  · intro name glyph hn hg
    simp [ChannelOutputListener.handle, hn, hg]
  · intro hn
    have hperson : iconsLookup "person" = some "👤" := rfl
    simp [ChannelOutputListener.handle, hn, hperson]
  · intro hn
    simp [ChannelOutputListener.handle, hn]

/-- C3: an `icon` attribute naming no key of the registry makes
ChannelOutputListener.handle fail with the lookup error, and no send
action is produced. -/
theorem C3_channel_handle_unknown_icon
    (l : ChannelOutputListener) (p : String) (g : Option Guild) (c : String)
    (a : Attributes) (name : String) (hIcon : a.icon = some name)
    (hMiss : iconsLookup name = none) :
    l.handle p g c a = .error (.keyError name) ∧
    ∀ act, l.handle p g c a ≠ .ok act := by
  have h : l.handle p g c a = .error (.keyError name) := by
    simp [ChannelOutputListener.handle, hIcon, hMiss]
  refine ⟨h, ?_⟩
  intro act hact
  rw [h] at hact
  exact Except.noConfusion hact

theorem C3_witness :
    chanListener.handle "/p" (some guildG) "hello" attrsBadIcon
      = .error (.keyError "not-a-real-icon") ∧
    ∀ act, chanListener.handle "/p" (some guildG) "hello" attrsBadIcon ≠ .ok act :=
  C3_channel_handle_unknown_icon chanListener "/p" (some guildG) "hello"
    attrsBadIcon "not-a-real-icon" rfl rfl

/-- C4: the Icon Registry is not total over the icon names supplied by the
producers in alias.py: `person` resolves, but the `item_add` icon of
add_alt and the `item_clear` icon of del_alt_chain have no entry in ICONS,
so those journal events fail the registry lookup at delivery time. -/
theorem C4_producer_icons_missing_from_registry :
    (add_alt_journal_send guildG).icon = "item_add" ∧
    iconsLookup "item_add" = none ∧
    (del_alt_chain_journal_send guildG).icon = "item_clear" ∧
    iconsLookup "item_clear" = none ∧
    iconsLookup "person" = some "👤" ∧
    ¬ ∀ name ∈ producerIconNames, (iconsLookup name).isSome = true := by
  refine ⟨rfl, rfl, rfl, rfl, rfl, ?_⟩
  intro h
  have := h "item_add" (by simp [producerIconNames])
  rw [show iconsLookup "item_add" = none from rfl] at this
  exact Bool.noConfusion this

/-- C5: DirectMessageListener.handle prefixes the content with the
bracketed scope name when the scope is present and leaves it unchanged
when the scope is absent; scenario D delivers the bracketed Test Guild
content. -/
theorem C5_dm_scope_prefix
    (l : DirectMessageListener) (p : String) (g : Guild) (c : String)
    (a : Attributes) :
    (l.handle p (some g) c a).content = "[" ++ g.name ++ "] " ++ c ∧
    (l.handle p none c a).content = c ∧
    (dmListener.handle "/alts/add" (some testGuild) "Added X and Y"
      Attributes.empty).content = "[Test Guild] Added X and Y" :=
  ⟨rfl, rfl, rfl⟩

/-- C6: the outgoing DM payload carries the `embed` attribute verbatim,
the `file` attribute as an independent fully-readable duplicate with the
same bytes and filename, the `files` attribute as the order-preserving
list of such duplicates, and nothing for absent keys. -/
theorem C6_dm_payload_attachment_duplication
    (l : DirectMessageListener) (p : String) (g : Option Guild) (c : String)
    (a : Attributes) :
    ((l.handle p g c a).embed = a.embed) ∧
    (∀ f, a.file = some f →
      (l.handle p g c a).file = some (copy_discord_file f) ∧
      (copy_discord_file f).filename = f.filename ∧
      (copy_discord_file f).readAllBytes = f.bytes ∧
      (copy_discord_file f).isFullyReadable = true) ∧
    (a.file = none → (l.handle p g c a).file = none) ∧
    (∀ fs, a.files = some fs →
      (l.handle p g c a).files = some (fs.map copy_discord_file) ∧
      ∀ f ∈ fs, (copy_discord_file f).filename = f.filename ∧
        (copy_discord_file f).readAllBytes = f.bytes ∧
        (copy_discord_file f).isFullyReadable = true) ∧
    (a.files = none → (l.handle p g c a).files = none) := by
  refine ⟨rfl, ?_, ?_, ?_, ?_⟩
  · intro f hf
    exact ⟨by simp [DirectMessageListener.handle, hf], rfl, rfl, rfl⟩
  · intro hf
    simp [DirectMessageListener.handle, hf]
  · intro fs hfs
    refine ⟨by simp [DirectMessageListener.handle, hfs], ?_⟩
    intro f _
    exact ⟨rfl, rfl, rfl⟩
  · intro hfs
    simp [DirectMessageListener.handle, hfs]

/-- C7: a recursive registration at L matches exactly the paths equal to L
or extending L past a separator (as segment-wise prefixhood of the
character sequence L followed by the slash), a non-recursive registration
matches only L itself, and in particular a registration at /al never
matches /alias. -/
theorem C7_path_matching (L P : String) :
    (listenerMatches L true P = true ↔ (P = L ∨ (L ++ "/").data <+: P.data)) ∧
    (listenerMatches L false P = true ↔ P = L) ∧
    listenerMatches "/al" true "/alias" = false ∧
    listenerMatches "/al" false "/alias" = false := by
  refine ⟨?_, ?_, rfl, rfl⟩
  · simp [listenerMatches, strStartsWith, charsStartWith_iff, beq_iff_eq]
  · simp [listenerMatches, beq_iff_eq]

/-- C8: for a ChannelOutputListener constructed with a user-supplied
filter f, the filtering step accepts an event exactly when the mandatory
scope filter accepts it and f accepts it. -/
theorem C8_user_filter_composition
    (l : ChannelOutputListener) (f : UserFilter) (args : EventArgs)
    (hf : l.userFilter = some f) :
    l.filteringStep args = true ↔
      (l.filter args.path args.guild args.content args.attributes = .ok true ∧
       f args = true) := by
  unfold ChannelOutputListener.filteringStep
  rw [hf]
  cases h : l.filter args.path args.guild args.content args.attributes with
  | error e => simp
  | ok b => cases b <;> simp

theorem C8_witness :
    chanListenerUF.filteringStep argsScenarioA = true ↔
      (chanListenerUF.filter argsScenarioA.path argsScenarioA.guild
        argsScenarioA.content argsScenarioA.attributes = .ok true ∧
       ufAlways argsScenarioA = true) :=
  C8_user_filter_composition chanListenerUF ufAlways argsScenarioA rfl

/-- C9: a scope-less event does not make ChannelOutputListener.filter
return False; the unguarded access of the scope's channels raises instead,
so the filter never yields a clean boolean for such events. -/
theorem C9_filter_scopeless_raises
    (l : ChannelOutputListener) (p c : String) (a : Attributes) :
    l.filter p none c a = .error (.attributeError "channels") ∧
    ∀ b, l.filter p none c a ≠ .ok b := by
  refine ⟨rfl, ?_⟩
  intro b h
  exact Except.noConfusion h

/-- C10: when the avatar changed and the new avatar URL does not begin
with a dot, the anchored EXTENSION_REGEX match fails, Alias.member_update
raises ValueError, and no database write or journal event results. -/
theorem C10_avatar_url_must_start_with_dot
    (before after : Member)
    (hAvatar : before.avatar ≠ after.avatar)
    (hUrl : after.avatar_url.data.head? ≠ some '.') :
    member_update before after =
      .error (.valueError
        ("Avatar URL does not match extension regex: " ++ after.avatar_url)) ∧
    ∀ r, member_update before after ≠ .ok r := by
  have hmatch : extensionRegexMatch after.avatar_url = none := by
    cases hm : extensionRegexMatch after.avatar_url with
    | none => rfl
    | some e => exact absurd (extensionRegexMatch_starts_dot _ _ hm) hUrl
  have herr : member_update before after =
      .error (.valueError
        ("Avatar URL does not match extension regex: " ++ after.avatar_url)) := by
    unfold member_update
    simp [hAvatar, hmatch, MemberChanges.toBool]
  refine ⟨herr, ?_⟩
  intro r hr
  rw [herr] at hr
  exact Except.noConfusion hr

theorem C10_witness :
    (memBefore.avatar ≠ memAfter.avatar) ∧
    (memAfter.avatar_url.data.head? ≠ some '.') ∧
    (member_update memBefore memAfter =
      .error (.valueError
        ("Avatar URL does not match extension regex: " ++ memAfter.avatar_url)) ∧
     ∀ r, member_update memBefore memAfter ≠ .ok r) :=
  ⟨by decide, by decide,
    C10_avatar_url_must_start_with_dot memBefore memAfter (by decide) (by decide)⟩

end Futaba
